import Mathlib

/-!
Verification development for the GLSL post-processor
(`src/libs/filamat/src/GLSLPostProcessor.cpp`).

Source text is modelled as `List Char`.  Each definition below is a direct
shallow embedding of the C++ function of the same name; comments point to the
source lines.  External collaborators (glslang front end, SPIRV-Tools
optimizer, spirv-cross) are modelled as an oracle record, since the spec
treats them as opaque.
-/

set_option maxRecDepth 20000

namespace Filamat

abbrev Text := List Char

/-! ## Text utilities (GLSLPostProcessor.cpp lines 144-207) -/

/-- Embeds `isIdCharNondigit` (line 144). -/
def isIdCharNondigit (c : Char) : Bool :=
  c = '_' || ('a' ≤ c && c ≤ 'z') || ('A' ≤ c && c ≤ 'Z')

/-- Embeds `isIdChar` (line 148). -/
def isIdChar (c : Char) : Bool :=
  isIdCharNondigit c || ('0' ≤ c && c ≤ '9')

/-- Embeds `consumeIdentifier` (line 155): on success returns the identifier and the
rest of the line after it.  The C++ works with an index into the line; here
the part of the line at and after the index is passed directly. -/
def consumeIdentifier : Text → Option (Text × Text)
  | [] => none
  | c :: t =>
    if isIdCharNondigit c then
      some (c :: t.takeWhile isIdChar, t.dropWhile isIdChar)
    else
      none

/-- Boolean list-prefix test, used to model `std::string_view::find`. -/
def isPrefixL : Text → Text → Bool
  | [], _ => true
  | _ :: _, [] => false
  | a :: as, b :: bs => a = b && isPrefixL as bs

/-- Embeds `consumeString` (line 174): `find` locates the pattern anywhere at or
after the cursor and the cursor moves to just after it; the suffix after the
first occurrence of `pat` is returned, `none` when `pat` does not occur. -/
def dropAfterSub (pat : Text) : Text → Option Text
  | [] => if pat = [] then some [] else none
  | l@(_ :: t) =>
    if isPrefixL pat l then some (l.drop pat.length) else dropAfterSub pat t

/-- One step of the `replaceAll` scan: the counter holds how many input
characters of an already replaced occurrence remain to be passed over, so
that (as in the C++, which resumes the search after the inserted text) no
match is sought inside a replacement. -/
def replaceAllAux (pat rep : Text) : Text → Nat → Text
  | [], _ => []
  | _ :: t, n + 1 => replaceAllAux pat rep t n
  | c :: t, 0 =>
    if pat ≠ [] ∧ isPrefixL pat (c :: t) = true then
      rep ++ replaceAllAux pat rep t (pat.length - 1)
    else
      c :: replaceAllAux pat rep t 0

/-- Models `replaceAll` (line 201): replaces every occurrence of `pat` left
to right; the scan resumes after the replacement text, exactly as the C++
advances `n` by `to.size()`.  `pat` is nonempty at every call site. -/
def replaceAll (pat rep l : Text) : Text := replaceAllAux pat rep l 0

/-! ## Line splitting -/

/-- Splits off the text before the first newline and the text after it. -/
def splitFirstNL : Text → Option (Text × Text)
  | [] => none
  | c :: t =>
    if c = '\n' then some ([], t)
    else (splitFirstNL t).map (fun p => (c :: p.1, p.2))




/-- Accumulator version of the newline split; `cur` is the line scanned so
far. -/
def linesAux : Text → Text → List Text
  | [], cur => if cur = [] then [] else [cur]
  | c :: t, cur =>
    if c = '\n' then cur :: linesAux t [] else linesAux t (cur ++ [c])

/-- The newline-terminated lines of a text; an unterminated tail counts as a
final line.  This is the segment structure walked by both `shrinkString` and
`minifyStructFields` (lines 121-139 and 229-238). -/
def linesOf (s : Text) : List Text := linesAux s []

/-- The line split performed by `minifyStructFields` (lines 226-238): split
at each newline, dropping empty segments. -/
def splitCodelines (s : Text) : List Text :=
  (linesOf s).filter (fun l => !l.isEmpty)

/-! ## Struct-field minifier (lines 209-368)

The two `std::unordered_map`s (`fieldMapping`, `currentStructToName`) are
modelled as association lists: `operator[]`-assignment updates in place or
appends, `operator[]`-read on a missing key appends a default (empty) entry,
exactly as in C++.  Where the C++ iterates an `unordered_map` in unspecified
order, the model iterates in insertion order. -/

/-- Association-list write, the model of `map[k] = v`. -/
def alUpd (k v : Text) : List (Text × Text) → List (Text × Text)
  | [] => [(k, v)]
  | (k0, v0) :: t => if k0 = k then (k0, v) :: t else (k0, v0) :: alUpd k v t

/-- Association-list lookup. -/
def alGet (k : Text) : List (Text × Text) → Option Text
  | [] => none
  | (k0, v0) :: t => if k0 = k then some v0 else alGet k t

/-- Association-list read through `operator[]`: a missing key inserts a
default-constructed (empty) value, and that value is returned. -/
def alGetIns (k : Text) (m : List (Text × Text)) : Text × List (Text × Text) :=
  match alGet k m with
  | some v => (v, m)
  | none => ([], m ++ [(k, [])])

/-- Embeds line 360, which takes the substring after the first dot of `val`;
when there is no dot, `find` yields `npos` and `npos + 1` wraps to `0`, so
the whole string is returned. -/
def afterFirstDot (v : Text) : Text :=
  match dropAfterSub ['.'] v with
  | some r => r
  | none => v

/-- The short-name generator step (lines 283-287): prepend an `a` when the
first character is `z`, otherwise increment the first character. -/
def genStep : Text → Text
  | [] => []
  | c :: t => if c = 'z' then 'a' :: 'z' :: t else Char.ofNat (c.toNat + 1) :: t

/-- The n-th short name the generator emits, starting from `"a"`. -/
def genNameAt : Nat → Text
  | 0 => ['a']
  | n + 1 => genStep (genNameAt n)

/-- The close-of-struct loop (lines 278-288): assign each accumulated field
a generated short name, writing `inst.field -> inst.short` into the table. -/
def assignFields (inst : Text) : List Text → Text → List (Text × Text) → List (Text × Text)
  | [], _, fm => fm
  | f :: fs, g, fm =>
      assignFields inst fs (genStep g) (alUpd (inst ++ '.' :: f) (inst ++ '.' :: g) fm)

/-- The `OUTSIDE` test (lines 252-263 and 322-327): the line contains the
text `uniform` followed by a space, an identifier follows immediately, and
the line ends there.  Returns the struct type identifier. -/
def matchStructOpen (line : Text) : Option Text :=
  match dropAfterSub ("uniform ".data) line with
  | none => none
  | some r =>
    match consumeIdentifier r with
    | none => none
    | some (ty, rest) => if rest = [] then some ty else none

/-- The field-declaration test inside `STRUCT_DEFN` (lines 293-304):
`Type SPACE Field ;` ending the line.  The C++ reads `codeline[index]` even
when `index == size` (out of bounds); that read is modelled as a mismatch. -/
def matchFieldDecl (line : Text) : Option (Text × Text) :=
  match consumeIdentifier line with
  | none => none
  | some (ty, r1) =>
    match r1 with
    | ' ' :: r2 =>
      match consumeIdentifier r2 with
      | none => none
      | some (fid, r3) =>
        match r3 with
        | ';' :: r4 => if r4 = [] then some (ty, fid) else none
        | _ => none
    | _ => none

/-- What a line is inside `STRUCT_DEFN`. -/
inductive DefnLine
  | close (inst : Text)
  | field (ty fid : Text)
  | skip

/-- Classification of a `STRUCT_DEFN` line (lines 268-305): when the
two-character close marker (closing brace, space) occurs anywhere in the
line the close branch runs, and its failures skip the line without trying
the field shape; otherwise the field shape is tried. -/
def classifyDefn (line : Text) : DefnLine :=
  match dropAfterSub ['}', ' '] line with
  | some r =>
    match consumeIdentifier r with
    | none => .skip
    | some (inst, r2) =>
      match dropAfterSub [';'] r2 with
      | some r3 => if r3 = [] then .close inst else .skip
      | none => .skip
  | none =>
    match matchFieldDecl line with
    | some (ty, fid) => .field ty fid
    | none => .skip

/-- The three states of the minifier state machine (line 241). -/
inductive MinifyMode
  | OUTSIDE
  | STRUCT_OPEN
  | STRUCT_DEFN
deriving DecidableEq

/-- State of the table-building scan pass (lines 240-307). -/
structure ScanSt where
  mode : MinifyMode
  currentStruct : Text
  fields : List Text
  fieldMapping : List (Text × Text)
  structToName : List (Text × Text)

/-- One scan-pass step (the `switch` at lines 251-306). -/
def scanStep (st : ScanSt) (line : Text) : ScanSt :=
  match st.mode with
  | .OUTSIDE =>
    match matchStructOpen line with
    | some ty => { st with currentStruct := ty, mode := .STRUCT_OPEN }
    | none => st
  | .STRUCT_OPEN =>
    { st with mode := if line = ['{'] then .STRUCT_DEFN else .OUTSIDE }
  | .STRUCT_DEFN =>
    match classifyDefn line with
    | .close inst =>
        { mode := .OUTSIDE
          currentStruct := st.currentStruct
          fields := []
          fieldMapping := assignFields inst st.fields ['a'] st.fieldMapping
          structToName := alUpd st.currentStruct inst st.structToName }
    | .field _ fid => { st with fields := st.fields ++ [fid] }
    | .skip => st

/-- State of the rewrite pass (lines 312-365); `out` is the accumulated
result text.  The maps are threaded because the rewrite pass itself inserts
default entries through `operator[]` (lines 358-359). -/
structure RewSt where
  mode : MinifyMode
  currentStruct : Text
  fieldMapping : List (Text × Text)
  structToName : List (Text × Text)
  out : Text

/-- One rewrite-pass step (lines 314-365).  Every line is emitted followed by
a newline. -/
def rewriteStep (st : RewSt) (line : Text) : RewSt :=
  match st.mode with
  | .OUTSIDE =>
    match matchStructOpen line with
    | some ty =>
        { st with currentStruct := ty, mode := .STRUCT_OPEN,
                  out := st.out ++ line ++ ['\n'] }
    | none =>
        let newline := st.fieldMapping.foldl (fun ln kv => replaceAll kv.1 kv.2 ln) line
        { st with out := st.out ++ newline ++ ['\n'] }
  | .STRUCT_OPEN =>
    { st with mode := if line = ['{'] then .STRUCT_DEFN else .OUTSIDE,
              out := st.out ++ line ++ ['\n'] }
  | .STRUCT_DEFN =>
    match classifyDefn line with
    | .close _ =>
        { st with mode := .OUTSIDE, out := st.out ++ line ++ ['\n'] }
    | .field ty fid =>
        let insStn := alGetIns st.currentStruct st.structToName
        let key := insStn.1 ++ '.' :: fid
        let valFm := alGetIns key st.fieldMapping
        let fieldName := afterFirstDot valFm.1
        let newline := ty ++ ' ' :: fieldName ++ [';']
        { st with fieldMapping := valFm.2, structToName := insStn.2,
                  out := st.out ++ newline ++ ['\n'] }
    | .skip =>
        { st with out := st.out ++ line ++ ['\n'] }

/-- Embeds `minifyStructFields` (lines 224-368): scan pass building the remapping
tables, then rewrite pass applying them. -/
def minifyStructFields (s : Text) : Text :=
  let codelines := splitCodelines s
  let sc := codelines.foldl scanStep
    { mode := .OUTSIDE, currentStruct := [], fields := [],
      fieldMapping := [], structToName := [] }
  (codelines.foldl rewriteStep
    { mode := .OUTSIDE, currentStruct := [],
      fieldMapping := sc.fieldMapping, structToName := sc.structToName,
      out := [] }).out

/-! ## `shrinkString` (lines 115-142)

The inner scan `while (s[cur] != '\n')` has no bound check: when no newline
remains at or after the cursor it walks past the end of the string.  That
run-away case is modelled as `none`.  Otherwise each line contributes its
text with leading spaces and tabs removed plus a newline, and the trailing
`while (s[cur] == '\n')` skip collapses the following newline run. -/

/-- The characters `find_first_not_of(" \t", pos)` skips. -/
def isWsST (c : Char) : Bool := c = ' ' || c = '\t'


/-- Model of `shrinkString` as a character-level machine; `skipping` is true
inside the trailing `while (s[cur] == ...)` newline-skip loop and `cur` is
the line scanned so far.  A nonempty final line with no terminating newline
sends the inner scan past the end of the string, which has no defined
result: `none`. -/
def shrinkAux : Text → Bool → Text → Option Text
  | [], _, cur => if cur = [] then some [] else none
  | c :: t, true, _ =>
    if c = '\n' then shrinkAux t true []
    else shrinkAux t false [c]
  | c :: t, false, cur =>
    if c = '\n' then
      (shrinkAux t true []).map (fun r => cur.dropWhile isWsST ++ '\n' :: r)
    else
      shrinkAux t false (cur ++ [c])

/-- Model of `shrinkString` (lines 115-142). -/
def shrinkF (s : Text) : Option Text := shrinkAux s false []

/-! ## Pipeline orchestrator (lines 370-716)

The glslang front end, the SPIRV-Tools optimizer and spirv-cross are the
spec's external collaborators; they are abstracted as an oracle record
`External`.  Null output pointers are modelled as request flags plus
`Option`-valued outputs (`none` = pointer never written).  `none` at the
level of the whole call models undefined behavior (null dereference, or the
`shrinkString` run-away). -/

inductive Optimization
  | NONE
  | PREPROCESSOR
  | SIZE
  | PERFORMANCE
deriving DecidableEq

inductive ShaderModel
  | UNKNOWN
  | GL_ES_30
  | GL_CORE_41
deriving DecidableEq

inductive ShaderType
  | VERTEX
  | FRAGMENT
deriving DecidableEq

inductive TargetApi
  | OPENGL
  | VULKAN
deriving DecidableEq

structure Config where
  shaderType : ShaderType
  shaderModel : ShaderModel
  subpassInputToColorLocation : List (Nat × Nat)

/-- The named SPIRV-Tools passes registered by the two profile builders.
Arguments mirror the C++ calls (`CreateScalarReplacementPass(0)`,
`CreateLoopUnrollPass(true)`). -/
inductive Pass
  | WrapOpKill
  | DeadBranchElim
  | MergeReturn
  | InlineExhaustive
  | AggressiveDCE
  | PrivateToLocal
  | LocalSingleBlockLoadStoreElim
  | LocalSingleStoreElim
  | ScalarReplacement (limit : Option Nat)
  | LocalAccessChainConvert
  | LocalMultiStoreElim
  | CCP
  | RedundancyElimination
  | CombineAccessChains
  | Simplification
  | VectorDCE
  | DeadInsertElim
  | IfConversion
  | CopyPropagateArrays
  | ReduceLoadSize
  | BlockMerge
  | EliminateDeadFunctions
  | LoopUnroll (fullyUnroll : Bool)
  | CFGCleanup
deriving DecidableEq

/-- Embeds `registerPerformancePasses` (lines 630-672); the C++ reads only
`config.shaderModel`, which is passed directly. -/
def registerPerformancePasses (shaderModel : ShaderModel) : List Pass :=
  [.WrapOpKill, .DeadBranchElim]
  ++ (if shaderModel ≠ ShaderModel.GL_CORE_41 then [Pass.MergeReturn] else [])
  ++ [.InlineExhaustive, .AggressiveDCE, .PrivateToLocal,
      .LocalSingleBlockLoadStoreElim, .LocalSingleStoreElim, .AggressiveDCE,
      .ScalarReplacement none, .LocalAccessChainConvert,
      .LocalSingleBlockLoadStoreElim, .LocalSingleStoreElim, .AggressiveDCE,
      .LocalMultiStoreElim, .AggressiveDCE, .CCP, .AggressiveDCE,
      .RedundancyElimination, .CombineAccessChains, .Simplification,
      .VectorDCE, .DeadInsertElim, .DeadBranchElim, .Simplification,
      .IfConversion, .CopyPropagateArrays, .ReduceLoadSize, .AggressiveDCE,
      .BlockMerge, .RedundancyElimination, .DeadBranchElim, .BlockMerge,
      .Simplification]

/-- Embeds `registerSizePasses` (lines 674-716); the C++ reads only
`config.shaderModel`, which is passed directly. -/
def registerSizePasses (shaderModel : ShaderModel) : List Pass :=
  [.WrapOpKill, .DeadBranchElim]
  ++ (if shaderModel ≠ ShaderModel.GL_CORE_41 then [Pass.MergeReturn] else [])
  ++ [.InlineExhaustive, .EliminateDeadFunctions, .PrivateToLocal,
      .ScalarReplacement (some 0), .LocalMultiStoreElim, .CCP,
      .LoopUnroll true, .DeadBranchElim, .Simplification,
      .ScalarReplacement (some 0), .LocalSingleStoreElim, .IfConversion,
      .Simplification, .AggressiveDCE, .DeadBranchElim, .BlockMerge,
      .LocalAccessChainConvert, .LocalSingleBlockLoadStoreElim,
      .AggressiveDCE, .CopyPropagateArrays, .VectorDCE, .DeadInsertElim,
      .LocalSingleStoreElim, .BlockMerge, .LocalMultiStoreElim,
      .RedundancyElimination, .Simplification, .AggressiveDCE, .CFGCleanup]

/-- Embeds `createOptimizer` (lines 596-616): the pass list registered for the
given optimization level. -/
def createOptimizer (optimization : Optimization) (config : Config) : List Pass :=
  if optimization = .SIZE then registerSizePasses config.shaderModel
  else if optimization = .PERFORMANCE then registerPerformancePasses config.shaderModel
  else []

/-- The external collaborators of one `process` call. `run` is
`spvtools::Optimizer::Run` (`none` = failure), `remapOut` the
`spirvbin_t::remap` dead-object elimination, `crossMsl` the spirv-cross MSL
backend, `decompileGlsl` the spirv-cross GLSL backend, the rest the glslang
front end. -/
structure External where
  parseOk : Bool
  linkOk : Bool
  infoLog : Text
  glslangSpv : List Nat
  run : List Pass → List Nat → Option (List Nat)
  remapOut : List Nat → List Nat
  crossMsl : List Nat → Text
  decompileGlsl : List Nat → Text
  preprocessOk : Bool
  preprocessText : Text
  preParseOk : Bool
  preLinkOk : Bool
  preSpv : List Nat

/-- Construction-time state of `GLSLPostProcessor` (lines 40-44). -/
structure PostProcessor where
  mOptimization : Optimization
  mPrintShaders : Bool
  mGenerateDebugInfo : Bool

/-- Outcome of one `process` call: the boolean return value plus what was
written through each output pointer (`none` = left untouched). -/
structure ProcessResult where
  success : Bool
  glslOut : Option Text
  spirvOut : Option (List Nat)
  mslOut : Option Text
  diagnostics : List Text
deriving DecidableEq

/-- Embeds `SpvToMsl` (lines 370-414): cross-compile then `shrinkString`. -/
def SpvToMslM (ext : External) (spirv : List Nat) : Option Text :=
  shrinkF (ext.crossMsl spirv)

/-- Embeds `optimizeSpirv` (lines 618-628): on success the remap runs over the
optimizer output; on failure a diagnostic is logged, the remap is skipped
and the blob is left as it was. -/
def optimizeSpirvM (ext : External) (passes : List Pass) (spirv : List Nat) :
    List Nat × List Text :=
  match ext.run passes spirv with
  | some out => (ext.remapOut out, [])
  | none => (spirv, ["SPIR-V optimizer pass failed".data])

/-- The branch outcome fed to the common tail of `process`: the content of
the GLSL buffer, what was written to the SPIR-V and MSL outputs, and the
diagnostics logged. -/
abbrev BranchOut := Text × Option (List Nat) × Option Text × List Text

/-- Embeds `fullOptimization` (lines 551-594).  Note that the SPIR-V and MSL
outputs are written whether or not the optimizer run succeeded. -/
def fullOptimizationM (pp : PostProcessor) (ext : External) (config : Config)
    (glslReq spirvReq mslReq : Bool) : Option BranchOut :=
  let passes := createOptimizer pp.mOptimization config
  let res := optimizeSpirvM ext passes ext.glslangSpv
  let spirv := res.1
  let spvOut : Option (List Nat) := if spirvReq then some spirv else none
  if mslReq then
    match SpvToMslM ext spirv with
    | none => none
    | some m => some ((if glslReq then ext.decompileGlsl spirv else []), spvOut, some m, res.2)
  else
    some ((if glslReq then ext.decompileGlsl spirv else []), spvOut, none, res.2)

/-- The `Optimization::NONE` arm of the `switch` (lines 468-479): with a
SPIR-V output, lower directly; otherwise only an error is logged (and the
call still goes on to return `true`). -/
def noneBranchM (ext : External) (spirvReq mslReq : Bool) : Option BranchOut :=
  if spirvReq then
    let spv := ext.glslangSpv
    if mslReq then
      match SpvToMslM ext spv with
      | none => none
      | some m => some ([], some spv, some m, [])
    else
      some ([], some spv, none, [])
  else
    some ([], none, none,
      ["GLSL post-processor invoked with optimization level NONE".data])

/-- Embeds `preprocessOptimization` (lines 500-549).  A preprocess failure only
logs; when an MSL output is requested without a SPIR-V output the C++
dereferences the null SPIR-V pointer (modelled `none`). -/
def preprocessOptimizationM (ext : External) (glslReq spirvReq mslReq : Bool) :
    Option BranchOut :=
  let glsl := ext.preprocessText
  let d0 : List Text := if ext.preprocessOk then [] else [ext.infoLog]
  let spvd : Option (List Nat) × List Text :=
    if spirvReq then
      if ext.preParseOk && ext.preLinkOk then (some ext.preSpv, d0)
      else (none, d0 ++ [ext.infoLog])
    else (none, d0)
  if mslReq then
    if spirvReq then
      let blob := match spvd.1 with
        | some b => b
        | none => []
      match SpvToMslM ext blob with
      | none => none
      | some m => some ((if glslReq then glsl else []), spvd.1, some m, spvd.2)
    else none
  else
    some ((if glslReq then glsl else []), spvd.1, none, spvd.2)

/-- Embeds `GLSLPostProcessor::process` (lines 416-498).  The target API is derived
from the SPIR-V output pointer (line 421); the OPENGL-and-NONE fast exit
copies the input to the GLSL output and returns before the front end is
consulted; every other path parses and links, dispatches on the optimization
level, and finally compacts and minifies the GLSL output if one was
requested. -/
def process (pp : PostProcessor) (ext : External) (config : Config)
    (inputShader : Text) (glslReq spirvReq mslReq : Bool) : Option ProcessResult :=
  let targetApi : TargetApi := if spirvReq then .VULKAN else .OPENGL
  if targetApi = .OPENGL ∧ pp.mOptimization = .NONE then
    -- line 423 writes `*outputGlsl` unconditionally: undefined without one
    if glslReq then some ⟨true, some inputShader, none, none, []⟩ else none
  else
    if ext.parseOk = false then some ⟨false, none, none, none, [ext.infoLog]⟩
    else if ext.linkOk = false then some ⟨false, none, none, none, [ext.infoLog]⟩
    else
      let branch : Option BranchOut :=
        match pp.mOptimization with
        | .NONE => noneBranchM ext spirvReq mslReq
        | .PREPROCESSOR => preprocessOptimizationM ext glslReq spirvReq mslReq
        | .SIZE => fullOptimizationM pp ext config glslReq spirvReq mslReq
        | .PERFORMANCE => fullOptimizationM pp ext config glslReq spirvReq mslReq
      match branch with
      | none => none
      | some (glslBuf, spvOut, mslOut, diags) =>
        if glslReq then
          match shrinkF glslBuf with
          | none => none
          | some shrunk =>
              some ⟨true, some (minifyStructFields shrunk), spvOut, mslOut, diags⟩
        else
          some ⟨true, none, spvOut, mslOut, diags⟩

/-! ## Specification-side definitions

These follow the words of the spec and of the claims, for comparison with
the embedded code. -/

/-- Leading spaces and tabs of a line removed. -/
def stripLine (l : Text) : Text := l.dropWhile isWsST

/-- Lines joined back, each terminated by a newline. -/
def joinLines (ls : List Text) : Text := ls.foldr (fun l acc => l ++ '\n' :: acc) []

/-- Empty lines removed, the rest stripped of leading spaces and tabs, and
the lines joined back. -/
def specJoin (ls : List Text) : Text :=
  joinLines ((ls.filter (fun l => !l.isEmpty)).map stripLine)

/-- Follows the words of claim C10 for the result of `shrinkString` on a
newline-terminated input: the input with empty lines removed and leading
spaces and tabs stripped from each line. -/
def shrinkClaimed (s : Text) : Text := specJoin (linesOf s)

/-- The amended description of `shrinkString` on a newline-terminated input:
as `shrinkClaimed`, except that an input beginning with a newline keeps one
leading empty line (the C++ emits the first line before its newline-skip
loop runs). -/
def shrinkAmended (s : Text) : Text :=
  (if s.head? = some '\n' then ['\n'] else []) ++ shrinkClaimed s

/-- The amended closed form of the short-name sequence: single letters for
the first 26 names, then a letter followed by `z` (the generator prepends an
`a` once the first character reaches `z` and then increments the first
character again). -/
def genNameClosed (n : Nat) : Text :=
  if n < 26 then [Char.ofNat (97 + n)]
  else [Char.ofNat (97 + (n - 26)), 'z']

/-! ## Concrete inputs used by the claims -/

/-- The worked example input of the spec (section 8) and claim C2. -/
def lightIn : Text :=
  ("uniform Light\n\x7b\nfloat intensity;\nvec3 color;\n\x7d lightBlock;\nvoid main()\x7b x = lightBlock.intensity * lightBlock.color.r; \x7d\n").data

/-- The output the spec expects for `lightIn`. -/
def lightOut : Text :=
  ("uniform Light\n\x7b\nfloat a;\nvec3 b;\n\x7d lightBlock;\nvoid main()\x7b x = lightBlock.a * lightBlock.b.r; \x7d\n").data

/-- A uniform block whose declared type identifier is exactly
`MaterialParams`, with one field use. -/
def mpIn : Text :=
  ("uniform MaterialParams\n\x7b\nfloat x;\n\x7d materialParams;\nv = materialParams.x;\n").data

/-- What `minifyStructFields` actually produces from `mpIn`: the struct is
minified like any other. -/
def mpOut : Text :=
  ("uniform MaterialParams\n\x7b\nfloat a;\n\x7d materialParams;\nv = materialParams.a;\n").data

/-- Two uniform blocks of the specified textual shape sharing the declared
type identifier `A`: the input for the counterexample of claim C2. -/
def dup2In : Text :=
  ("uniform A\n\x7b\nfloat x;\n\x7d one;\nuniform A\n\x7b\nfloat y;\n\x7d two;\n").data

/-- What `minifyStructFields` actually produces from `dup2In`: the first
struct's field declaration degenerates to `float ;` because the rewrite pass
looks it up under the clobbered instance name `two` and default-inserts an
empty mapping entry. -/
def dup2ActualOut : Text :=
  ("uniform A\n\x7b\nfloat ;\n\x7d one;\nuniform A\n\x7b\nfloat a;\n\x7d two;\n").data

/-- What the claim's universal clause requires for `dup2In`: each struct's
first-seen field rewritten to the short name `a` with its type preserved. -/
def dup2ClaimOut : Text :=
  ("uniform A\n\x7b\nfloat a;\n\x7d one;\nuniform A\n\x7b\nfloat a;\n\x7d two;\n").data

/-- Two uniform structs sharing the type identifier `A` plus a line in which
an erased mapping entry synthesizes a new struct opener: the input for the
idempotence counterexample of claim C9. -/
def dupIn : Text :=
  ("uniform A\n\x7b\nfloat x;\n\x7d one;\nuniform A\n\x7b\nfloat y;\n\x7d two;\nuniform Btwo.x\n\x7b\nfloat z;\n\x7d three;\n").data

/-- One field-declaration line `float f<i>;`. -/
def fieldLine (i : Nat) : Text :=
  ("float f").data ++ Nat.toDigits 10 i ++ (";\n").data

/-- A uniform block with 27 fields `f0` to `f26`, for claim C7. -/
def big27 : Text :=
  ("uniform Big\n\x7b\n").data
    ++ ((List.range 27).map fieldLine).flatten
    ++ ("\x7d big;\n").data

/-- A fixed configuration for the concrete pipeline runs. -/
def config0 : Config := ⟨.FRAGMENT, .GL_ES_30, []⟩

/-- An oracle whose optimizer run always fails and whose other collaborators
succeed with fixed outputs. -/
def extFail : External where
  parseOk := true
  linkOk := true
  infoLog := ("log").data
  glslangSpv := [3, 1, 4]
  run := fun _ _ => none
  remapOut := fun b => b
  crossMsl := fun _ => ("m\n").data
  decompileGlsl := fun _ => ("g\n").data
  preprocessOk := true
  preprocessText := []
  preParseOk := true
  preLinkOk := true
  preSpv := []

/-! ## Theorems -/

/-- Claim C1: the spec requires structs whose declared type identifier is
exactly `MaterialParams` to be left unminified, and the source's own comment
(line 213) says the same; but `minifyStructFields` contains no such check,
so the struct in `mpIn` is minified like any other: its field declaration
becomes `float a;` and the use becomes `materialParams.a`. -/
theorem claim_C1_materialparams_is_minified :
    minifyStructFields mpIn = mpOut ∧ mpOut ≠ mpIn := by decide

/-- Claim C2 counterexample: the claim quantifies over every source of the
specified textual shape, but when two uniform blocks share the declared type
identifier `A`, the scan pass clobbers the type-to-instance entry, the
rewrite pass looks the first struct's field `x` up under the instance name
`two`, default-inserts an empty mapping entry, and rewrites the declaration
line to `float ;` — not to the short name `a` with the type preserved as the
claim requires. -/
theorem claim_C2_counterexample :
    minifyStructFields dup2In = dup2ActualOut ∧ dup2ActualOut ≠ dup2ClaimOut := by decide

/-- Claim C2 as amended: on the worked example input (one uniform block, so
the failure mode of `dup2In` cannot arise) the minifier maps `intensity` to
`a` and `color` to `b`, rewrites the two field declarations with their types
preserved, and rewrites both uses in the `main` line, exactly as the claim's
`in particular` clause states. -/
theorem claim_C2_example_rewrite :
    minifyStructFields lightIn = lightOut := by decide

/-- Claim C3: at optimization level NONE with only the GLSL output requested
the fast exit (lines 422-428) copies the input byte-identically and returns
success; the result is one fixed value for every oracle, so no external
collaborator is consulted. -/
theorem claim_C3_none_fast_exit :
    ∀ (prt dbg : Bool) (ext : External) (config : Config) (inputShader : Text),
      process ⟨.NONE, prt, dbg⟩ ext config inputShader true false false
        = some ⟨true, some inputShader, none, none, []⟩ := by
  intro prt dbg ext config inputShader
  rfl

/-- Claim C4: for every shader model both profiles begin with the
kill-wrapping pass and the dead-branch-elimination pass, and the
merge-return pass follows as the third pass exactly when the shader model is
not the legacy desktop target `GL_CORE_41`; under `GL_CORE_41` neither
profile contains it at all. -/
theorem claim_C4_profile_heads_and_merge_return :
    ∀ m : ShaderModel,
      ((registerPerformancePasses m).take 2 = [.WrapOpKill, .DeadBranchElim]
        ∧ (registerSizePasses m).take 2 = [.WrapOpKill, .DeadBranchElim])
      ∧ ((registerPerformancePasses m).get? 2 = some .MergeReturn ↔ m ≠ .GL_CORE_41)
      ∧ ((registerSizePasses m).get? 2 = some .MergeReturn ↔ m ≠ .GL_CORE_41)
      ∧ (m = .GL_CORE_41 →
          Pass.MergeReturn ∉ registerPerformancePasses m
            ∧ Pass.MergeReturn ∉ registerSizePasses m) := by
  intro m
  cases m <;> decide

/-- Claim C5 counterexample: with an oracle whose optimizer run fails, a
FAVOR-SIZE call that requests the IR and MSL outputs still produces both
(the IR blob written is the unoptimized input blob `[3, 1, 4]`), reports the
failure only as a diagnostic, and returns success — refuting the claim that
the IR-dependent outputs are not produced. -/
theorem claim_C5_counterexample :
    process ⟨.SIZE, false, false⟩ extFail config0 (("s").data) false true true
        = some ⟨true, none, some [3, 1, 4], some (("m\n").data),
                [("SPIR-V optimizer pass failed").data]⟩
      ∧ (some [3, 1, 4] : Option (List Nat)) ≠ none := by decide

/-- Claim C5 as amended: when the optimizer run fails at FAVOR-SIZE or
FAVOR-SPEED, the failure is reported as a diagnostic and the
dead-object-elimination remap is skipped, but the requested IR and
secondary-language outputs are still produced from the blob the failed run
left behind, and the call still returns success. -/
theorem claim_C5_amended_outputs_still_produced :
    ∀ (opt : Optimization) (prt dbg : Bool) (ext : External) (config : Config)
      (inputShader : Text) (spirvReq mslReq : Bool),
      opt = .SIZE ∨ opt = .PERFORMANCE →
      ext.parseOk = true →
      ext.linkOk = true →
      ext.run (createOptimizer opt config) ext.glslangSpv = none →
      (mslReq = true → (SpvToMslM ext ext.glslangSpv).isSome = true) →
      process ⟨opt, prt, dbg⟩ ext config inputShader false spirvReq mslReq
        = some ⟨true, none,
                (if spirvReq then some ext.glslangSpv else none),
                (if mslReq then SpvToMslM ext ext.glslangSpv else none),
                [("SPIR-V optimizer pass failed").data]⟩ := by
  intro opt prt dbg ext config inputShader spirvReq mslReq hopt hparse hlink hrun hmsl
  rcases hopt with rfl | rfl <;>
    cases spirvReq <;> cases mslReq <;>
      simp [process, fullOptimizationM, optimizeSpirvM, hparse, hlink, hrun] <;>
      (obtain ⟨m, hm⟩ := Option.isSome_iff_exists.mp (hmsl rfl)
       simp [hm])

/-- Witness for the amended claim C5 at a concrete oracle. -/
theorem claim_C5_witness :
    process ⟨.SIZE, false, false⟩ extFail config0 (("s").data) false true true
      = some ⟨true, none, some extFail.glslangSpv,
              SpvToMslM extFail extFail.glslangSpv,
              [("SPIR-V optimizer pass failed").data]⟩ := by
  have h := claim_C5_amended_outputs_still_produced .SIZE false false extFail config0
    (("s").data) true true (Or.inl rfl) rfl rfl rfl (fun _ => by decide)
  simpa using h

/-- Claim C6: the spec says an IR-less NONE call that needs IR is reported
as a usage error and `process` returns false.  In the code the target API is
derived from the SPIR-V output pointer (line 421), so every IR-less NONE
call — here one that also requests the IR-requiring MSL output — takes the
fast exit and returns success with no diagnostic and no MSL produced; the
error branch at lines 476-479 is unreachable and would return true anyway. -/
theorem claim_C6_irless_none_returns_success :
    ∀ (prt dbg : Bool) (ext : External) (config : Config) (inputShader : Text),
      process ⟨.NONE, prt, dbg⟩ ext config inputShader true false true
        = some ⟨true, some inputShader, none, none, []⟩ := by
  intro prt dbg ext config inputShader
  rfl

/-- Claim C7 counterexample: in a struct with 27 fields the 27th short name
the minifier writes is `az`, not `aa` as the claimed `a…z, aa, bb, …`
sequence requires (line index 28 of the minified text is the 27th field
declaration). -/
theorem claim_C7_counterexample :
    (splitCodelines (minifyStructFields big27)).get? 28 = some (("float az;").data)
      ∧ (("float az;").data : Text) ≠ ("float aa;").data := by decide

/-- Claim C7 as amended: the short names assigned in first-seen field order
are the single letters `a` to `z` for the first 26 fields and then `az`,
`bz`, …, `zz` for fields 27 to 52: the generator prepends an `a` when the
first character has reached `z` and otherwise increments the first
character. -/
theorem claim_C7_amended_sequence :
    ∀ n : Nat, n < 52 → genNameAt n = genNameClosed n := by decide

/-- Witness for the amended claim C7 at the 27th name. -/
theorem claim_C7_witness :
    genNameAt 26 = genNameClosed 26 :=
  claim_C7_amended_sequence 26 (by decide)

/-- Claim C8: the first N short names the generator emits (N at most 52) are
pairwise distinct and N in number, so the per-struct remapping the minifier
builds from them is injective. -/
theorem claim_C8_short_names_distinct :
    ∀ N : Nat, N ≤ 52 →
      ((List.range N).map genNameAt).Nodup
        ∧ ((List.range N).map genNameAt).length = N := by
  intro N h
  have h52 : ((List.range 52).map genNameAt).Nodup := by decide
  constructor
  · exact List.Nodup.sublist (List.Sublist.map genNameAt (List.range_sublist.mpr h)) h52
  · simp

/-- Witness for claim C8 at the full 52-name range. -/
theorem claim_C8_witness :
    ((List.range 52).map genNameAt).Nodup
      ∧ ((List.range 52).map genNameAt).length = 52 :=
  claim_C8_short_names_distinct 52 (by decide)

/-- Claim C9: the minifier is not idempotent.  In `dupIn` two structs share
the type identifier `A`, so the rewrite pass looks the first struct's fields
up under the second instance name, default-inserts an empty mapping entry,
emits a broken declaration, and erases the text `two.x` from a later line —
which synthesizes a new `uniform B` opening line that only the second run
minifies (its field `z` is renamed to `a` by the second run only). -/
theorem claim_C9_not_idempotent :
    minifyStructFields (minifyStructFields dupIn) ≠ minifyStructFields dupIn := by decide

/-! ## Support lemmas for claim C10 -/

theorem lastQ_cons (c : Char) (t : Text) (h : t ≠ []) :
    (c :: t).getLast? = t.getLast? := by
  cases t with
  | nil => exact absurd rfl h
  | cons d u => rfl

theorem linesAux_head_ext :
    ∀ (t cur hd : Text) (tl : List Text),
      linesAux t cur = hd :: tl → ∃ suf, hd = cur ++ suf := by
  intro t
  induction t with
  | nil =>
    intro cur hd tl h
    by_cases hc : cur = []
    · simp [linesAux, hc] at h
    · simp [linesAux, hc] at h
      exact ⟨[], by simp [← h.1]⟩
  | cons c u ih =>
    intro cur hd tl h
    by_cases hc : c = '\n'
    · simp [linesAux, hc] at h
      exact ⟨[], by simp [← h.1]⟩
    · simp only [linesAux, if_neg hc] at h
      obtain ⟨suf, hs⟩ := ih (cur ++ [c]) hd tl h
      exact ⟨c :: suf, by simp [hs]⟩

theorem specJoin_nil_cons (ls : List Text) : specJoin ([] :: ls) = specJoin ls := by
  simp [specJoin]

theorem specJoin_cons_ne (hd : Text) (ls : List Text) (h : hd ≠ []) :
    specJoin (hd :: ls) = stripLine hd ++ '\n' :: specJoin ls := by
  cases hd with
  | nil => exact absurd rfl h
  | cons a b => simp [specJoin, joinLines]

/-- The behaviour of the `shrinkString` machine on newline-terminated input,
with the line accumulator generalized: in the newline-skip state it produces
the cleaned remaining lines; in the scanning state it produces the stripped
current line followed by the cleaned remaining lines. -/
theorem shrinkAux_good :
    ∀ s : Text,
      ((s.getLast? = some '\n' ∨ s = []) →
        shrinkAux s true [] = some (specJoin (linesAux s [])))
      ∧ (s.getLast? = some '\n' →
        ∀ cur, ∃ hd tl, linesAux s cur = hd :: tl
          ∧ shrinkAux s false cur = some (stripLine hd ++ '\n' :: specJoin tl)) := by
  intro s
  induction s with
  | nil =>
    constructor
    · intro _; rfl
    · intro h; simp [List.getLast?] at h
  | cons c t ih =>
    have hne : (c :: t) ≠ ([] : Text) := by simp
    constructor
    · intro hyp
      have hlast : (c :: t).getLast? = some '\n' := by
        rcases hyp with h | h
        · exact h
        · exact absurd h hne
      by_cases hc : c = '\n'
      · subst hc
        by_cases ht : t = []
        · subst ht; decide
        · have hlt : t.getLast? = some '\n' := by
            rwa [lastQ_cons _ _ ht] at hlast
          have h1 := ih.1 (Or.inl hlt)
          simp [shrinkAux, linesAux, h1, specJoin_nil_cons]
      · have ht : t ≠ [] := by
          intro h0
          subst h0
          simp [List.getLast?] at hlast
          exact hc hlast
        have hlt : t.getLast? = some '\n' := by
          rwa [lastQ_cons _ _ ht] at hlast
        obtain ⟨hd, tl, hlines, hshr⟩ := ih.2 hlt [c]
        obtain ⟨suf, hsuf⟩ := linesAux_head_ext t [c] hd tl hlines
        simp only [shrinkAux, if_neg hc, linesAux, List.nil_append]
        rw [hlines, hshr, specJoin_cons_ne hd tl (by simp [hsuf])]
    · intro hlast cur
      by_cases hc : c = '\n'
      · subst hc
        have h1 : shrinkAux t true [] = some (specJoin (linesAux t [])) := by
          by_cases ht : t = []
          · exact ih.1 (Or.inr ht)
          · exact ih.1 (Or.inl (by rwa [lastQ_cons _ _ ht] at hlast))
        refine ⟨cur, linesAux t [], by simp [linesAux], ?_⟩
        simp only [shrinkAux, if_pos rfl]
        rw [h1]
        rfl
      · have ht : t ≠ [] := by
          intro h0
          subst h0
          simp [List.getLast?] at hlast
          exact hc hlast
        have hlt : t.getLast? = some '\n' := by
          rwa [lastQ_cons _ _ ht] at hlast
        obtain ⟨hd, tl, hlines, hshr⟩ := ih.2 hlt (cur ++ [c])
        refine ⟨hd, tl, ?_, ?_⟩
        · simpa [linesAux, if_neg hc] using hlines
        · simpa [shrinkAux, if_neg hc] using hshr

/-- With a nonempty final line missing its newline, the `shrinkString`
machine has no defined result from any state. -/
theorem shrinkAux_runaway :
    ∀ s : Text, s ≠ [] → s.getLast? ≠ some '\n' →
      ∀ (b : Bool) (cur : Text), shrinkAux s b cur = none := by
  intro s
  induction s with
  | nil => intro h; exact absurd rfl h
  | cons c t ih =>
    intro _ hlast b cur
    by_cases ht : t = []
    · subst ht
      have hc : c ≠ '\n' := by
        intro h0
        exact hlast (by simp [List.getLast?, h0])
      cases b
      · simp [shrinkAux, hc]
      · simp [shrinkAux, hc]
    · have hlt : t.getLast? ≠ some '\n' := by
        rw [lastQ_cons _ _ ht] at hlast
        exact hlast
      have iht := ih ht hlt
      cases b <;> by_cases hc : c = '\n' <;> simp [shrinkAux, hc, iht]

/-- Claim C10 as amended: `shrinkString` has a defined result exactly on the
empty input and on newline-terminated inputs.  There it returns the input
with empty lines removed and leading spaces and tabs stripped from each
line, except that an input beginning with a newline keeps one leading empty
line.  On a nonempty input whose last character is not a newline the inner
scan advances past the end of the string with no stopping condition (no
defined result). -/
theorem claim_C10_termination_and_shape :
    (∀ s : Text, s = [] ∨ s.getLast? = some '\n' → shrinkF s = some (shrinkAmended s))
    ∧ (∀ s : Text, s ≠ [] → s.getLast? ≠ some '\n' → shrinkF s = none) := by
  constructor
  · intro s hyp
    rcases hyp with rfl | hlast
    · rfl
    · cases s with
      | nil => simp [List.getLast?] at hlast
      | cons c t =>
        obtain ⟨hd, tl, hlines, hshr⟩ := (shrinkAux_good (c :: t)).2 hlast []
        by_cases hc : c = '\n'
        · subst hc
          have h0 : ([] : Text) :: linesAux t [] = hd :: tl := by
            rw [← hlines]; simp [linesAux]
          obtain ⟨h1, h2⟩ := List.cons.inj h0
          subst h2
          subst h1
          show shrinkAux ('\n' :: t) false [] = _
          rw [hshr]
          simp only [shrinkAmended, shrinkClaimed, linesOf, List.head?]
          simp [linesAux, specJoin_nil_cons, stripLine]
        · have hlines2 : linesAux t [c] = hd :: tl := by
            simpa [linesAux, if_neg hc] using hlines
          obtain ⟨suf, hsuf⟩ := linesAux_head_ext t [c] hd tl hlines2
          show shrinkAux (c :: t) false [] = _
          rw [hshr]
          simp only [shrinkAmended, shrinkClaimed, linesOf, List.head?]
          rw [hlines, specJoin_cons_ne hd tl (by simp [hsuf])]
          simp [hc]
  · intro s h1 h2
    exact shrinkAux_runaway s h1 h2 false []

/-- Witness for the amended claim C10 on concrete inputs from both sides of
the disjunction. -/
theorem claim_C10_witness :
    shrinkF (("  a\n\nb\n").data) = some (shrinkAmended (("  a\n\nb\n").data))
      ∧ shrinkF (("ab").data) = none :=
  ⟨claim_C10_termination_and_shape.1 (("  a\n\nb\n").data) (Or.inr (by decide)),
   claim_C10_termination_and_shape.2 (("ab").data) (by decide) (by decide)⟩

/-- Claim C10 counterexample for the shape part as stated: on the
newline-terminated input beginning with a newline, `shrinkString` keeps a
leading empty line, while the claimed description (empty lines removed,
leading whitespace stripped) removes it. -/
theorem claim_C10_counterexample :
    shrinkF (("\na\n").data) = some (("\na\n").data)
      ∧ shrinkClaimed (("\na\n").data) = ("a\n").data
      ∧ (("\na\n").data : Text) ≠ ("a\n").data := by decide

end Filamat
